import Mathlib

set_option maxRecDepth 100000

/-!
Verification of the auto-flow Markdown-to-YAML migration utility
(`migrate_to_yaml.py`).

The script parses three Markdown documents (`SPRINTS.md`, `TASK.md`,
`COMPLETED_TASKS.md`) with Python `re` patterns and assembles nested
records that are then dumped as YAML.  We embed the three parse
functions over `List Char`, modelling each regular expression by a
matcher built from backtracking combinators whose exploration order
mirrors the Python engine (greedy quantifiers try the longest
alternative first, lazy quantifiers the shortest; on failure the most
recently created choice point is revisited first).  The ambient inputs
of the script — the document texts and the clock — become explicit
parameters; everything else is a straight translation of the source.
-/

/-- Python `\s` (ASCII range, which covers all inputs handled here). -/
def isPySpace (c : Char) : Bool :=
  c = ' ' || c = '\t' || c = '\n' || c = '\x0d' || c = '\x0b' || c = '\x0c'

/-- Python `\w` (ASCII letters, digits, underscore). -/
def isPyWord (c : Char) : Bool :=
  c.isAlphanum || c = '_'

/-- Python `\d`. -/
def isPyDigit (c : Char) : Bool :=
  c.isDigit

/-- Python `.` without `re.DOTALL`: any character except a newline. -/
def nonNl (c : Char) : Bool :=
  c != '\n'

/-- Python `.` under `re.DOTALL`: any character. -/
def anyChar (_ : Char) : Bool :=
  true

/-- Python `[a-f0-9]` (the commit-hash class). -/
def isHexLower (c : Char) : Bool :=
  c.isDigit || ('a' ≤ c && c ≤ 'f')

/-- `pat` is a prefix of `s` (character-for-character). -/
def leadsWith : List Char → List Char → Bool
  | [], _ => true
  | _ :: _, [] => false
  | p :: ps, c :: cs => p = c && leadsWith ps cs

/-- Python `str.strip()` restricted to ASCII whitespace. -/
def pyStrip (s : List Char) : List Char :=
  (((s.dropWhile isPySpace).reverse).dropWhile isPySpace).reverse

/-- Python `int()` on a string of decimal digits (the only shape the
script ever feeds it, since every converted group matches `\d+`). -/
def pyInt (s : List Char) : Nat :=
  s.foldl (fun n c => n * 10 + (c.toNat - 48)) 0

/-- Python `str.split('\n')`. -/
def splitNl : List Char → List (List Char)
  | [] => [[]]
  | c :: s =>
    if c = '\n' then [] :: splitNl s
    else
      match splitNl s with
      | [] => [[c]]
      | l :: ls => (c :: l) :: ls

/-- `sep` occurs as a contiguous sublist of `s`. -/
def hasSub (sep : List Char) : List Char → Bool
  | [] => leadsWith sep []
  | c :: s => leadsWith sep (c :: s) || hasSub sep s

/-- Python `s.split(sep, 1)[1]`: the part after the first occurrence of
`sep`; `none` when `sep` does not occur. -/
def afterFirst (sep : List Char) : List Char → Option (List Char)
  | [] => if leadsWith sep [] then some (List.drop sep.length []) else none
  | c :: s =>
    if leadsWith sep (c :: s) then some (List.drop sep.length (c :: s))
    else afterFirst sep (c :: s).tail

/-! ## Backtracking matcher combinators

Each combinator takes a continuation `k`; the overall `Option` result
is the first success in the same exploration order the Python engine
uses.  All are CPS so that backtracking across several quantifiers is
faithful. -/

/-- Match a literal, then continue. -/
def lit (pat : List Char) (k : List Char → Option β) (s : List Char) : Option β :=
  if leadsWith pat s then k (s.drop pat.length) else none

/-- Match one character satisfying `p`, then continue. -/
def anyOne (p : Char → Bool) (k : Char → List Char → Option β) : List Char → Option β
  | [] => none
  | c :: s => if p c then k c s else none

/-- Worker for the greedy quantifiers: `acc` holds the consumed
characters in reverse; extend first, fall back to stopping here. -/
def greedyGo (p : Char → Bool) (k : List Char → List Char → Option β) :
    List Char → List Char → Option β
  | acc, [] => k acc.reverse []
  | acc, c :: s =>
    if p c then
      match greedyGo p k (c :: acc) s with
      | some b => some b
      | none => k acc.reverse (c :: s)
    else k acc.reverse (c :: s)

/-- Greedy `X+` over the character class `p` (as in `\d+`, `\w+`, `.+`). -/
def greedyPlus (p : Char → Bool) (k : List Char → List Char → Option β) :
    List Char → Option β
  | [] => none
  | c :: s => if p c then greedyGo p k [c] s else none

/-- Greedy `X*` over the character class `p` (as in `\s*`, `.*`); the
continuation only needs the rest of the input. -/
def greedyStar (p : Char → Bool) (k : List Char → Option β) :
    List Char → Option β
  | [] => k []
  | c :: s =>
    if p c then
      match greedyStar p k s with
      | some b => some b
      | none => k (c :: s)
    else k (c :: s)

/-- Worker for the lazy quantifier: try the continuation before
consuming one more character. -/
def lazyGo (p : Char → Bool) (k : List Char → List Char → Option β) :
    List Char → List Char → Option β
  | acc, [] =>
    match k acc.reverse [] with
    | some b => some b
    | none => none
  | acc, c :: s' =>
    match k acc.reverse (c :: s') with
    | some b => some b
    | none => if p c then lazyGo p k (c :: acc) s' else none

/-- Lazy `X+?` over the character class `p` (as in `(.+?)`). -/
def lazyPlus (p : Char → Bool) (k : List Char → List Char → Option β) :
    List Char → Option β
  | [] => none
  | c :: s => if p c then lazyGo p k [c] s else none

/-! ## `re.search` / `re.finditer` -/

/-- Try the matcher at offset `i`, `i+1`, … (`re.search` semantics);
a matcher returns its groups and the unconsumed rest of the input. -/
def searchAux (M : List Char → Option (α × List Char)) :
    Nat → List Char → Option (Nat × α × List Char)
  | i, [] =>
    match M [] with
    | some (a, rest) => some (i, a, rest)
    | none => none
  | i, c :: t =>
    match M (c :: t) with
    | some (a, rest) => some (i, a, rest)
    | none => searchAux M (i + 1) t

/-- Leftmost match of `M` in `s`: start offset, groups, rest. -/
def searchM (M : List Char → Option (α × List Char)) (s : List Char) :
    Option (Nat × α × List Char) :=
  searchAux M 0 s

/-- One `re.finditer` hit: start offset, captured groups, end offset. -/
structure Hit (α : Type) where
  start : Nat
  groups : α
  stop : Nat
deriving Repr

/-- `re.finditer` worker: `i` is the absolute offset of `s` inside the
original input; the fuel bounds the number of matches (each nonempty
match consumes input, and an empty match advances by one, exactly as
the Python scanner does). -/
def findIterAux (M : List Char → Option (α × List Char)) :
    Nat → List Char → Nat → List (Hit α)
  | _, _, 0 => []
  | i, s, Nat.succ fuel =>
    match searchAux M i s with
    | none => []
    | some (j, a, rest) =>
      let stop := i + s.length - rest.length
      if stop > j then ⟨j, a, stop⟩ :: findIterAux M stop rest fuel
      else ⟨j, a, stop⟩ :: findIterAux M (stop + 1) (rest.drop 1) fuel

/-- All non-overlapping matches of `M` in `s`, leftmost-first. -/
def findIter (M : List Char → Option (α × List Char)) (s : List Char) :
    List (Hit α) :=
  findIterAux M 0 s (s.length + 1)

/-! ## The sprint-plan extractor (`parse_sprints_md`) -/

/-- The six captured groups of the sprint-header pattern. -/
structure SprintGroups where
  g1 : List Char
  g2 : List Char
  g3 : List Char
  g4 : List Char
  g5 : List Char
  g6 : List Char
deriving Repr

/-- Matcher for
`## Sprint (\d+):\s*(.+?)\n\n\*\*Duration\*\*:\s*(.+?)\n\*\*Status\*\*:\s*(\w+)\n\*\*Progress\*\*:\s*(\d+)/(\d+)`. -/
def matchSprint (s : List Char) : Option (SprintGroups × List Char) :=
  lit (("## Sprint ").data) (fun s1 =>
    greedyPlus isPyDigit (fun g1 s2 =>
      lit ((":").data) (fun s3 =>
        greedyStar isPySpace (fun s4 =>
          lazyPlus nonNl (fun g2 s5 =>
            lit (("\n\n**Duration**:").data) (fun s6 =>
              greedyStar isPySpace (fun s7 =>
                lazyPlus nonNl (fun g3 s8 =>
                  lit (("\n**Status**:").data) (fun s9 =>
                    greedyStar isPySpace (fun s10 =>
                      greedyPlus isPyWord (fun g4 s11 =>
                        lit (("\n**Progress**:").data) (fun s12 =>
                          greedyStar isPySpace (fun s13 =>
                            greedyPlus isPyDigit (fun g5 s14 =>
                              lit (("/").data) (fun s15 =>
                                greedyPlus isPyDigit (fun g6 s16 =>
                                  some (⟨g1, g2, g3, g4, g5, g6⟩, s16))
                                  s15) s14) s13) s12) s11) s10) s9) s8) s7)
                s6) s5) s4) s3) s2) s1) s

/-- Matcher for `## Sprint \d+:` (used to delimit a sprint's span). -/
def matchNextSprint (s : List Char) : Option (Unit × List Char) :=
  lit (("## Sprint ").data) (fun s1 =>
    greedyPlus isPyDigit (fun _ s2 =>
      lit ((":").data) (fun s3 => some ((), s3)) s2) s1) s

/-- Matcher for `\*\*Project\*\*:\s*(.+)`. -/
def matchProject (s : List Char) : Option (List Char × List Char) :=
  lit (("**Project**:").data) (fun s1 =>
    greedyStar isPySpace (fun s2 =>
      greedyPlus nonNl (fun g r => some (g, r)) s2) s1) s

/-- Matcher for `\*\*Total Sprints\*\*:\s*(\d+)`. -/
def matchTotalSprints (s : List Char) : Option (List Char × List Char) :=
  lit (("**Total Sprints**:").data) (fun s1 =>
    greedyStar isPySpace (fun s2 =>
      greedyPlus isPyDigit (fun g r => some (g, r)) s2) s1) s

/-- One line of the deliverables block, `\d+\..*\n`; returns the
consumed line (newline included) and the rest. -/
def matchNumLine (s : List Char) : Option (List Char × List Char) :=
  greedyPlus isPyDigit (fun d s1 =>
    lit ((".").data) (fun s2 =>
      greedyStar nonNl (fun s3 =>
        lit (("\n").data) (fun s4 =>
          some (d ++ (".").data ++
                (s2.take (s2.length - s3.length)) ++ ("\n").data, s4))
          s3) s2) s1) s

/-- Greedy `(?:L)+` for a line matcher `L` that always consumes input:
collect the maximal run of lines (nothing follows these groups in the
patterns that use them, so the maximal run is the match). -/
def linesPlusAux (L : List Char → Option (List Char × List Char)) :
    Nat → List Char → (List (List Char) × List Char)
  | 0, s => ([], s)
  | Nat.succ fuel, s =>
    match L s with
    | none => ([], s)
    | some (ln, rest) =>
      match linesPlusAux L fuel rest with
      | (ls, r) => (ln :: ls, r)

/-- At least one line: the captured group is the concatenation. -/
def blockPlus (L : List Char → Option (List Char × List Char))
    (s : List Char) : Option ((List (List Char)) × List Char) :=
  match linesPlusAux L (s.length + 1) s with
  | ([], _) => none
  | (ls, r) => some (ls, r)

/-- Matcher for `### Deliverables\n\n((?:\d+\..*\n)+)`; the group is
returned both split into lines and is conceptually their
concatenation. -/
def matchDelivBlock (s : List Char) : Option ((List (List Char)) × List Char) :=
  lit (("### Deliverables\n\n").data) (fun s1 => blockPlus matchNumLine s1) s

/-- The three captured groups of the embedded-task pattern. -/
structure TaskLineGroups where
  g1 : List Char
  g2 : List Char
  g3 : List Char
deriving Repr

/-- Matcher for the embedded-task pattern
`` `(task-\d+)`\s*\[(\w+)\]\s*-\s*(.+) ``. -/
def matchTaskLine (s : List Char) : Option (TaskLineGroups × List Char) :=
  lit (("`").data) (fun s1 =>
    lit (("task-").data) (fun s2 =>
      greedyPlus isPyDigit (fun d s3 =>
        lit (("`").data) (fun s4 =>
          greedyStar isPySpace (fun s5 =>
            lit (("[").data) (fun s6 =>
              greedyPlus isPyWord (fun g2 s7 =>
                lit (("]").data) (fun s8 =>
                  greedyStar isPySpace (fun s9 =>
                    lit (("-").data) (fun s10 =>
                      greedyStar isPySpace (fun s11 =>
                        greedyPlus nonNl (fun g3 r =>
                          some (⟨("task-").data ++ d, g2, g3⟩, r))
                          s11) s10) s9) s8) s7) s6) s5) s4) s3) s2) s1) s

/-- An embedded task summary (`tasks.append({...})` at the bottom of
the sprint loop). -/
structure TaskSummary where
  id : String
  status : String
  title : String
deriving Repr, DecidableEq

/-- `progress` sub-record of a sprint. -/
structure Progress where
  completed : Nat
  total : Nat
deriving Repr, DecidableEq

/-- One `sprint_data` record. -/
structure Sprint where
  id : Nat
  goal : String
  status : String
  duration : String
  progress : Progress
  deliverables : List String
  tasks : List TaskSummary
  completed : Option String
deriving Repr, DecidableEq

/-- The `project` header of the sprints document. -/
structure ProjectInfo where
  name : String
  total_sprints : Nat
  current_sprint : Nat
  last_updated : String
deriving Repr, DecidableEq

/-- Result of `parse_sprints_md`. -/
structure SprintsDoc where
  project : ProjectInfo
  sprints : List Sprint
deriving Repr, DecidableEq

/-- One deliverable string from one block line:
`line.strip()[3:].strip()`. -/
def delivLineText (l : List Char) : String :=
  (pyStrip (List.drop 3 (pyStrip l))).asString

/-- The lines of the captured deliverables block that survive the
`if line.strip()` filter. -/
def deliverableLinesOf (content : List Char) : List (List Char) :=
  match searchM matchDelivBlock content with
  | none => []
  | some (_, ls, _) => (splitNl ls.flatten).filter (fun l => pyStrip l ≠ [])

/-- The deliverables list of one sprint span:
`[line.strip()[3:].strip() for line in text.split('\n') if line.strip()]`
applied to the captured block. -/
def deliverablesOf (content : List Char) : List String :=
  (deliverableLinesOf content).map delivLineText

/-- The embedded task summaries of one sprint span. -/
def tasksOf (content : List Char) : List TaskSummary :=
  (findIter matchTaskLine content).map (fun h =>
    ⟨h.groups.g1.asString, h.groups.g2.asString, (pyStrip h.groups.g3).asString⟩)

/-- Each sprint-header hit paired with its content span
(`sprints_md[match.start():sprint_section_end]`). -/
def sprintRaws (s : List Char) : List (Hit SprintGroups × List Char) :=
  (findIter matchSprint s).map (fun h =>
    let tailEnd :=
      match searchM matchNextSprint (s.drop h.stop) with
      | some (j, _, _) => h.stop + j
      | none => s.length
    (h, (s.drop h.start).take (tailEnd - h.start)))

/-- Build one `sprint_data` record from a header hit and its span. -/
def buildSprint (hc : Hit SprintGroups × List Char) : Sprint :=
  let g := hc.1.groups
  let status := pyStrip g.g4
  { id := pyInt g.g1
    goal := (pyStrip g.g2).asString
    status := status.asString
    duration := (pyStrip g.g3).asString
    progress := ⟨pyInt g.g5, pyInt g.g6⟩
    deliverables := deliverablesOf hc.2
    tasks := tasksOf hc.2
    completed :=
      if status.asString = ("COMPLETE") then some (("2025-10-04")) else none }

/-- `parse_sprints_md`, with the document text and the
`datetime.now().strftime('%Y-%m-%d')` value as explicit inputs. -/
def parse_sprints_md (md today : String) : SprintsDoc :=
  let s := md.data
  let projectName :=
    match searchM matchProject s with
    | some (_, g, _) => g.asString
    | none => ("CraftyPrep - Laser Engraving Image Prep Tool")
  let totalSprints :=
    match searchM matchTotalSprints s with
    | some (_, g, _) => pyInt g
    | none => 7
  let sprints := (sprintRaws s).map buildSprint
  let currentSprint :=
    match sprints.find? (fun sp => sp.status = ("ACTIVE")) with
    | some sp => sp.id
    | none => 1
  { project :=
      { name := projectName
        total_sprints := totalSprints
        current_sprint := currentSprint
        last_updated := today }
    sprints := sprints }

/-! ## The active-task extractor (`parse_task_md`) -/

/-- Matcher for `\*\*Current Sprint\*\*:\s*Sprint (\d+)\s*-\s*(.+)`. -/
def matchCurrentSprint (s : List Char) : Option ((List Char × List Char) × List Char) :=
  lit (("**Current Sprint**:").data) (fun s1 =>
    greedyStar isPySpace (fun s2 =>
      lit (("Sprint ").data) (fun s3 =>
        greedyPlus isPyDigit (fun g1 s4 =>
          greedyStar isPySpace (fun s5 =>
            lit (("-").data) (fun s6 =>
              greedyStar isPySpace (fun s7 =>
                greedyPlus nonNl (fun g2 r => some ((g1, g2), r))
                  s7) s6) s5) s4) s3) s2) s1) s

/-- Matcher for `\*\*Sprint Goal\*\*:\s*(.+)`. -/
def matchSprintGoal (s : List Char) : Option (List Char × List Char) :=
  lit (("**Sprint Goal**:").data) (fun s1 =>
    greedyStar isPySpace (fun s2 =>
      greedyPlus nonNl (fun g r => some (g, r)) s2) s1) s

/-- Matcher for `\*\*Duration\*\*:\s*(.+)`. -/
def matchDuration (s : List Char) : Option (List Char × List Char) :=
  lit (("**Duration**:").data) (fun s1 =>
    greedyStar isPySpace (fun s2 =>
      greedyPlus nonNl (fun g r => some (g, r)) s2) s1) s

/-- Matcher for `\*\*Status\*\*:\s*(\w+)`. -/
def matchStatusWord (s : List Char) : Option (List Char × List Char) :=
  lit (("**Status**:").data) (fun s1 =>
    greedyStar isPySpace (fun s2 =>
      greedyPlus isPyWord (fun g r => some (g, r)) s2) s1) s

/-- Matcher for `\*\*Progress\*\*:\s*(\d+)/(\d+)`. -/
def matchProgressPair (s : List Char) : Option ((List Char × List Char) × List Char) :=
  lit (("**Progress**:").data) (fun s1 =>
    greedyStar isPySpace (fun s2 =>
      greedyPlus isPyDigit (fun g1 s3 =>
        lit (("/").data) (fun s4 =>
          greedyPlus isPyDigit (fun g2 r => some ((g1, g2), r)) s4) s3) s2) s1) s

/-- The six captured groups of the active-task header pattern. -/
structure TaskHdrGroups where
  g1 : List Char
  g2 : List Char
  g3 : List Char
  g4 : List Char
  g5 : List Char
  g6 : List Char
deriving Repr

/-- Matcher for
`### (Task \d+\.\d+):\s*(.+?)\n\n\*\*ID\*\*:\s*(task-\d+)\n\*\*Priority\*\*:\s*(\w+)\n\*\*Status\*\*:\s*(\w+)\n\*\*Estimated Effort\*\*:\s*(.+)`
(the `re.MULTILINE` flag only changes `^`/`$`, which the pattern does
not use). -/
def matchTaskHdr (s : List Char) : Option (TaskHdrGroups × List Char) :=
  lit (("### ").data) (fun s1 =>
    lit (("Task ").data) (fun s2 =>
      greedyPlus isPyDigit (fun dMaj s3 =>
        lit ((".").data) (fun s4 =>
          greedyPlus isPyDigit (fun dMin s5 =>
            lit ((":").data) (fun s6 =>
              greedyStar isPySpace (fun s7 =>
                lazyPlus nonNl (fun g2 s8 =>
                  lit (("\n\n**ID**:").data) (fun s9 =>
                    greedyStar isPySpace (fun s10 =>
                      lit (("task-").data) (fun s11 =>
                        greedyPlus isPyDigit (fun dId s12 =>
                          lit (("\n**Priority**:").data) (fun s13 =>
                            greedyStar isPySpace (fun s14 =>
                              greedyPlus isPyWord (fun g4 s15 =>
                                lit (("\n**Status**:").data) (fun s16 =>
                                  greedyStar isPySpace (fun s17 =>
                                    greedyPlus isPyWord (fun g5 s18 =>
                                      lit (("\n**Estimated Effort**:").data) (fun s19 =>
                                        greedyStar isPySpace (fun s20 =>
                                          greedyPlus nonNl (fun g6 r =>
                                            some (⟨("Task ").data ++ dMaj ++ (".").data ++ dMin,
                                                   g2,
                                                   ("task-").data ++ dId,
                                                   g4, g5, g6⟩, r))
                                            s20) s19) s18) s17) s16) s15) s14)
                            s13) s12) s11) s10) s9) s8) s7) s6) s5) s4) s3) s2) s1) s

/-- Matcher for `### Task \d+\.\d+:` (span delimiter). -/
def matchNextTask (s : List Char) : Option (Unit × List Char) :=
  lit (("### Task ").data) (fun s1 =>
    greedyPlus isPyDigit (fun _ s2 =>
      lit ((".").data) (fun s3 =>
        greedyPlus isPyDigit (fun _ s4 =>
          lit ((":").data) (fun s5 => some ((), s5)) s4) s3) s2) s1) s

/-- Matcher for `\*\*Description\*\*:\n(.+?)(?=\n\n\*\*)` under
`re.DOTALL`: the lazy group may cross newlines; the lookahead consumes
nothing. -/
def matchDesc (s : List Char) : Option (List Char × List Char) :=
  lit (("**Description**:\n").data) (fun s1 =>
    lazyPlus anyChar (fun g r =>
      if leadsWith (("\n\n**").data) r then some (g, r) else none) s1) s

/-- One checklist line, `- \[.\] .+\n`; returns the consumed line. -/
def matchCritLine (s : List Char) : Option (List Char × List Char) :=
  lit (("- [").data) (fun s1 =>
    anyOne nonNl (fun c s2 =>
      lit (("] ").data) (fun s3 =>
        greedyPlus nonNl (fun t s4 =>
          lit (("\n").data) (fun s5 =>
            some (("- [").data ++ [c] ++ ("] ").data ++ t ++ ("\n").data, s5))
            s4) s3) s2) s1) s

/-- Matcher for `\*\*Acceptance Criteria\*\*:\n((?:- \[.\] .+\n)+)`. -/
def matchCritBlock (s : List Char) : Option ((List (List Char)) × List Char) :=
  lit (("**Acceptance Criteria**:\n").data) (fun s1 => blockPlus matchCritLine s1) s

/-- Matcher for `\*\*Blockers\*\*:\s*(.+)`. -/
def matchBlockers (s : List Char) : Option (List Char × List Char) :=
  lit (("**Blockers**:").data) (fun s1 =>
    greedyStar isPySpace (fun s2 =>
      greedyPlus nonNl (fun g r => some (g, r)) s2) s1) s

/-- Matcher for the documentation-link pattern `- \[(.+?)\]\((.+?)\)`. -/
def matchDocLink (s : List Char) : Option ((List Char × List Char) × List Char) :=
  lit (("- [").data) (fun s1 =>
    lazyPlus nonNl (fun g1 s2 =>
      lit (("](").data) (fun s3 =>
        lazyPlus nonNl (fun g2 s4 =>
          lit ((")").data) (fun r => some ((g1, g2), r)) s4) s3) s2) s1) s

/-- One acceptance criterion. -/
structure Criterion where
  criterion : String
  completed : Bool
deriving Repr, DecidableEq

/-- One documentation link. -/
structure DocLink where
  title : String
  path : String
deriving Repr, DecidableEq

/-- One detailed task of the active-task document. -/
structure TaskDetail where
  id : String
  title : String
  priority : String
  status : String
  estimated : String
  description : String
  acceptance_criteria : List Criterion
  blockers : Option String
  documentation : List DocLink
deriving Repr, DecidableEq

/-- The `sprint` header of the active-task document. -/
structure SprintSummary where
  id : Nat
  goal : String
  duration : String
  status : String
  progress : Progress
  last_updated : String
deriving Repr, DecidableEq

/-- Result of `parse_task_md`. -/
structure TaskDoc where
  sprint : SprintSummary
  tasks : List TaskDetail
deriving Repr, DecidableEq

/-- The description of one task span:
`desc_match.group(1).strip() if desc_match else ""`. -/
def descOf (sec : List Char) : String :=
  match searchM matchDesc sec with
  | some (_, g, _) => (pyStrip g).asString
  | none => ("")

/-- One criterion record from one checklist line: `checked = 'x' in
line[:6]`, `criterion = line.split('] ', 1)[1].strip() if '] ' in line
else line`. -/
def criterionOfLine (line : List Char) : Criterion :=
  { criterion :=
      if hasSub (("] ").data) line then
        match afterFirst (("] ").data) line with
        | some a => (pyStrip a).asString
        | none => line.asString
      else line.asString
    completed := (line.take 6).any (fun c => c == 'x') }

/-- The lines of the captured criteria block that survive the
`line.strip().startswith('- [')` filter. -/
def criteriaLinesOf (sec : List Char) : List (List Char) :=
  match searchM matchCritBlock sec with
  | none => []
  | some (_, ls, _) =>
    (splitNl ls.flatten).filter (fun l => leadsWith (("- [").data) (pyStrip l))

/-- The acceptance-criteria list of one task span. -/
def criteriaOf (sec : List Char) : List Criterion :=
  (criteriaLinesOf sec).map criterionOfLine

/-- `blockers = blockers_match.group(1).strip() if blockers_match else
"None"`. -/
def blockersOf (sec : List Char) : List Char :=
  match searchM matchBlockers sec with
  | some (_, g, _) => pyStrip g
  | none => ("None").data

/-- The documentation links of one task span. -/
def docsOf (sec : List Char) : List DocLink :=
  (findIter matchDocLink sec).map (fun h =>
    ⟨h.groups.1.asString, h.groups.2.asString⟩)

/-- Each task-header hit paired with its content span
(`task_md[task_start:task_end]`). -/
def taskRaws (s : List Char) : List (Hit TaskHdrGroups × List Char) :=
  (findIter matchTaskHdr s).map (fun h =>
    let tailEnd :=
      match searchM matchNextTask (s.drop h.stop) with
      | some (j, _, _) => h.stop + j
      | none => s.length
    (h, (s.drop h.start).take (tailEnd - h.start)))

/-- Build one `task_data` record from a header hit and its span. -/
def buildTaskDetail (hc : Hit TaskHdrGroups × List Char) : TaskDetail :=
  let g := hc.1.groups
  let blockers := blockersOf hc.2
  { id := g.g3.asString
    title := (pyStrip g.g2).asString
    priority := (pyStrip g.g4).asString
    status := (pyStrip g.g5).asString
    estimated := (pyStrip g.g6).asString
    description := descOf hc.2
    acceptance_criteria := criteriaOf hc.2
    blockers := if blockers.asString = ("None") then none else some blockers.asString
    documentation := docsOf hc.2 }

/-- `parse_task_md`, with the document text and the
`datetime.now().isoformat() + 'Z'` value as explicit inputs.  (The
source also computes a `sprint_name` from the current-sprint line, but
never uses it in the result.) -/
def parse_task_md (md now : String) : TaskDoc :=
  let s := md.data
  let sprintId :=
    match searchM matchCurrentSprint s with
    | some (_, g, _) => pyInt g.1
    | none => 3
  let goal :=
    match searchM matchSprintGoal s with
    | some (_, g, _) => (pyStrip g).asString
    | none => ("")
  let duration :=
    match searchM matchDuration s with
    | some (_, g, _) => (pyStrip g).asString
    | none => ("TBD")
  let status :=
    match searchM matchStatusWord s with
    | some (_, g, _) => (pyStrip g).asString
    | none => ("ACTIVE")
  let progress :=
    match searchM matchProgressPair s with
    | some (_, g, _) => Progress.mk (pyInt g.1) (pyInt g.2)
    | none => Progress.mk 0 0
  { sprint :=
      { id := sprintId
        goal := goal
        duration := duration
        status := status
        progress := progress
        last_updated := now }
    tasks := (taskRaws s).map buildTaskDetail }

/-! ## The completed-task extractor (`parse_completed_tasks_md`) -/

/-- The seven captured groups of the completed-task header pattern. -/
structure CompHdrGroups where
  g1 : List Char
  g2 : List Char
  g3 : List Char
  g4 : List Char
  g5 : List Char
  g6 : List Char
  g7 : List Char
deriving Repr

/-- Matcher for
`### Task \d+\.\d+:\s*(.+?)\n\n\*\*ID\*\*:\s*(task-\d+)\n\*\*Status\*\*:\s*(\w+)\n\*\*Completed\*\*:\s*(.+?)\n\*\*Estimated\*\*:\s*(.+?)\n\*\*Actual\*\*:\s*(.+?)\n\*\*Sprint\*\*:\s*(.+)`. -/
def matchCompHdr (s : List Char) : Option (CompHdrGroups × List Char) :=
  lit (("### Task ").data) (fun s1 =>
    greedyPlus isPyDigit (fun _ s2 =>
      lit ((".").data) (fun s3 =>
        greedyPlus isPyDigit (fun _ s4 =>
          lit ((":").data) (fun s5 =>
            greedyStar isPySpace (fun s6 =>
              lazyPlus nonNl (fun g1 s7 =>
                lit (("\n\n**ID**:").data) (fun s8 =>
                  greedyStar isPySpace (fun s9 =>
                    lit (("task-").data) (fun s10 =>
                      greedyPlus isPyDigit (fun dId s11 =>
                        lit (("\n**Status**:").data) (fun s12 =>
                          greedyStar isPySpace (fun s13 =>
                            greedyPlus isPyWord (fun g3 s14 =>
                              lit (("\n**Completed**:").data) (fun s15 =>
                                greedyStar isPySpace (fun s16 =>
                                  lazyPlus nonNl (fun g4 s17 =>
                                    lit (("\n**Estimated**:").data) (fun s18 =>
                                      greedyStar isPySpace (fun s19 =>
                                        lazyPlus nonNl (fun g5 s20 =>
                                          lit (("\n**Actual**:").data) (fun s21 =>
                                            greedyStar isPySpace (fun s22 =>
                                              lazyPlus nonNl (fun g6 s23 =>
                                                lit (("\n**Sprint**:").data) (fun s24 =>
                                                  greedyStar isPySpace (fun s25 =>
                                                    greedyPlus nonNl (fun g7 r =>
                                                      some (⟨g1, ("task-").data ++ dId,
                                                             g3, g4, g5, g6, g7⟩, r))
                                                      s25) s24) s23) s22) s21) s20)
                                        s19) s18) s17) s16) s15) s14) s13) s12)
                        s11) s10) s9) s8) s7) s6) s5) s4) s3) s2) s1) s

/-- One line of the key-deliverables block, `- ‚úÖ .+\n` (the marker
characters U+201A U+00FA U+00D6 are taken verbatim from the source,
where the original check-mark emoji survives only as mojibake). -/
def matchKeyDelivLine (s : List Char) : Option (List Char × List Char) :=
  lit (("- ‚úÖ ").data) (fun s1 =>
    greedyPlus nonNl (fun t s2 =>
      lit (("\n").data) (fun s3 =>
        some (("- ‚úÖ ").data ++ t ++ ("\n").data, s3)) s2) s1) s

/-- Matcher for `\*\*Key Deliverables\*\*:\n((?:- ‚úÖ .+\n)+)`. -/
def matchKeyDelivBlock (s : List Char) : Option ((List (List Char)) × List Char) :=
  lit (("**Key Deliverables**:\n").data) (fun s1 => blockPlus matchKeyDelivLine s1) s

/-- Matcher for `\*\*Commit\*\*:\s*([a-f0-9]+)`. -/
def matchCommit (s : List Char) : Option (List Char × List Char) :=
  lit (("**Commit**:").data) (fun s1 =>
    greedyStar isPySpace (fun s2 =>
      greedyPlus isHexLower (fun g r => some (g, r)) s2) s1) s

/-- Matcher for `Tests passing:\s*(.+)`. -/
def matchTests (s : List Char) : Option (List Char × List Char) :=
  lit (("Tests passing:").data) (fun s1 =>
    greedyStar isPySpace (fun s2 =>
      greedyPlus nonNl (fun g r => some (g, r)) s2) s1) s

/-- Matcher for `Code coverage:\s*(.+)`. -/
def matchCoverage (s : List Char) : Option (List Char × List Char) :=
  lit (("Code coverage:").data) (fun s1 =>
    greedyStar isPySpace (fun s2 =>
      greedyPlus nonNl (fun g r => some (g, r)) s2) s1) s

/-- One completed-task record. -/
structure CompletedTask where
  id : String
  title : String
  status : String
  completed : String
  estimated : String
  actual : String
  sprint : String
  description : String
  deliverables : List String
  commit : Option String
  quality_metrics : List (String × String)
deriving Repr, DecidableEq

/-- Result of `parse_completed_tasks_md`. -/
structure CompletedDoc where
  projectName : String
  last_updated : String
  tasks : List CompletedTask
deriving Repr, DecidableEq

/-- The key-deliverables list of one completed-task span:
`[line.strip()[4:].strip() for line in block.split('\n') if line.strip()]`. -/
def keyDeliverablesOf (sec : List Char) : List String :=
  match searchM matchKeyDelivBlock sec with
  | none => []
  | some (_, ls, _) =>
    ((splitNl ls.flatten).filter (fun l => pyStrip l ≠ [])).map
      (fun l => (pyStrip (List.drop 4 (pyStrip l))).asString)

/-- The quality-metrics map of one completed-task span, in dict
insertion order; a key is present exactly when its search succeeds. -/
def qualityMetricsOf (sec : List Char) : List (String × String) :=
  (match searchM matchTests sec with
   | some (_, g, _) => [(("tests_passing"), (pyStrip g).asString)]
   | none => []) ++
  (match searchM matchCoverage sec with
   | some (_, g, _) => [(("code_coverage"), (pyStrip g).asString)]
   | none => [])

/-- Each completed-task header hit paired with its content span. -/
def compRaws (s : List Char) : List (Hit CompHdrGroups × List Char) :=
  (findIter matchCompHdr s).map (fun h =>
    let tailEnd :=
      match searchM matchNextTask (s.drop h.stop) with
      | some (j, _, _) => h.stop + j
      | none => s.length
    (h, (s.drop h.start).take (tailEnd - h.start)))

/-- Build one completed `task_data` record. -/
def buildCompleted (hc : Hit CompHdrGroups × List Char) : CompletedTask :=
  let g := hc.1.groups
  { id := g.g2.asString
    title := (pyStrip g.g1).asString
    status := (pyStrip g.g3).asString
    completed := (pyStrip g.g4).asString
    estimated := (pyStrip g.g5).asString
    actual := (pyStrip g.g6).asString
    sprint := (pyStrip g.g7).asString
    description := descOf hc.2
    deliverables := keyDeliverablesOf hc.2
    commit :=
      match searchM matchCommit hc.2 with
      | some (_, g, _) => some g.asString
      | none => none
    quality_metrics := qualityMetricsOf hc.2 }

/-- `parse_completed_tasks_md`, with the document text and the
`datetime.now().isoformat() + 'Z'` value as explicit inputs. -/
def parse_completed_tasks_md (md now : String) : CompletedDoc :=
  { projectName := ("CraftyPrep - Laser Engraving Image Prep Tool")
    last_updated := now
    tasks := (compRaws md.data).map buildCompleted }

/-! ## The orchestrator (`main`)

Reads and writes are the only failure points of a pipeline (the parse
functions are total); we model them as `Except` values supplied by the
environment, and `main` as the list of lines it prints, in order.  The
non-ASCII marker characters are the source's own (mojibake) literals. -/

/-- The sprint pipeline body: read `SPRINTS.md`, parse, write
`SPRINTS.yml`; the first failure aborts the body. -/
def sprintsPipeline (readTxt : Except String String) (today : String)
    (write : SprintsDoc → Except String Unit) : Except String Unit :=
  match readTxt with
  | Except.error e => Except.error e
  | Except.ok txt => write (parse_sprints_md txt today)

/-- The active-task pipeline body. -/
def taskPipeline (readTxt : Except String String) (now : String)
    (write : TaskDoc → Except String Unit) : Except String Unit :=
  match readTxt with
  | Except.error e => Except.error e
  | Except.ok txt => write (parse_task_md txt now)

/-- The completed-task pipeline body. -/
def completedPipeline (readTxt : Except String String) (now : String)
    (write : CompletedDoc → Except String Unit) : Except String Unit :=
  match readTxt with
  | Except.error e => Except.error e
  | Except.ok txt => write (parse_completed_tasks_md txt now)

/-- The success-or-error line one `try`/`except` block prints. -/
def markerLine (okMsg : String) (r : Except String Unit) : String :=
  match r with
  | Except.ok _ => okMsg
  | Except.error e => ("   ‚ùå Error: ") ++ e ++ ("\n")

/-- The final completion banner. -/
def banner : String := ("‚ú® Migration complete!")

/-- Everything `main` prints, in order, given the outcome of each
pipeline body. -/
def mainLines (r1 r2 r3 : Except String Unit) : List String :=
  [ ("üîÑ Migrating auto-flow files from Markdown to YAML...\n")
  , ("1. Migrating SPRINTS.md to SPRINTS.yml...")
  , markerLine (("   ‚úÖ SPRINTS.yml created successfully\n")) r1
  , ("2. Migrating TASK.md to TASK.yml...")
  , markerLine (("   ‚úÖ TASK.yml created successfully\n")) r2
  , ("3. Migrating COMPLETED_TASKS.md to COMPLETED_TASKS.yml...")
  , markerLine (("   ‚úÖ COMPLETED_TASKS.yml created successfully\n")) r3
  , banner
  , ("\nNext steps:")
  , ("  1. Review the generated YAML files")
  , ("  2. Backup the Markdown files")
  , ("  3. Test with auto-flow commands") ]

/-- `main` as a function of its environment: the three read results,
the clock values, and the three write operations. -/
def mainLog (read1 : Except String String) (today : String)
    (write1 : SprintsDoc → Except String Unit)
    (read2 : Except String String) (now2 : String)
    (write2 : TaskDoc → Except String Unit)
    (read3 : Except String String) (now3 : String)
    (write3 : CompletedDoc → Except String Unit) : List String :=
  mainLines (sprintsPipeline read1 today write1)
    (taskPipeline read2 now2 write2)
    (completedPipeline read3 now3 write3)

/-! ## Auxiliary predicates and concrete fixture documents -/

/-- `pat` occurs in `s` at offset `i`. -/
def subAt (s : List Char) (i : Nat) (pat : List Char) : Bool :=
  leadsWith pat (s.drop i)

/-- A description boundary exists: some occurrence of the description
label is followed, at least one character later, by a blank line and a
bold marker (`\n\n**`).  This is exactly the condition under which the
description pattern `\*\*Description\*\*:\n(.+?)(?=\n\n\*\*)` can
match somewhere in the span. -/
def descBoundaryB (s : List Char) : Bool :=
  (List.range s.length).any (fun i =>
    subAt s i (("**Description**:\n").data) &&
    (List.range s.length).any (fun p =>
      decide (i + 18 ≤ p) && subAt s p (("\n\n**").data)))

/-- Placeholder sprint hit (only used as a `headD` default). -/
def dummySprintRaw : Hit SprintGroups × List Char :=
  (⟨0, ⟨[], [], [], [], [], []⟩, 0⟩, [])

/-- Placeholder task hit (only used as a `headD` default). -/
def dummyTaskRaw : Hit TaskHdrGroups × List Char :=
  (⟨0, ⟨[], [], [], [], [], []⟩, 0⟩, [])

/-- Placeholder completed-task hit (only used as a `headD` default). -/
def dummyCompRaw : Hit CompHdrGroups × List Char :=
  (⟨0, ⟨[], [], [], [], [], [], []⟩, 0⟩, [])

/-- Fixture: a sprint header whose goal group carries a trailing
space. -/
def c1xdoc : String :=
  "## Sprint 1: Goal \n\n**Duration**: 1 week\n**Status**: ACTIVE\n**Progress**: 0/5\n"

/-- Fixture: a plain one-sprint document. -/
def c1wdoc : String :=
  "## Sprint 4: Ship it\n\n**Duration**: 1 week\n**Status**: ACTIVE\n**Progress**: 2/5\n"

/-- The first sprint raw of `c1wdoc`. -/
def c1raw : Hit SprintGroups × List Char :=
  (sprintRaws c1wdoc.data).headD dummySprintRaw

/-- Fixture: one sprint whose span repeats the same task identifier. -/
def c2xdoc : String :=
  "## Sprint 1: G\n\n**Duration**: 1w\n**Status**: ACTIVE\n**Progress**: 0/2\n\n`task-001` [COMPLETE] - A\n`task-001` [PENDING] - B\n"

/-- Fixture: one sprint with two distinct tasks. -/
def c2wdoc : String :=
  "## Sprint 1: G\n\n**Duration**: 1w\n**Status**: ACTIVE\n**Progress**: 0/2\n\n`task-001` [COMPLETE] - A\n`task-002` [PENDING] - B\n"

/-- The first sprint raw of `c2wdoc`. -/
def c2raw : Hit SprintGroups × List Char :=
  (sprintRaws c2wdoc.data).headD dummySprintRaw

/-- Fixture: a deliverable line with a three-digit number. -/
def c3xdoc : String :=
  "## Sprint 1: G\n\n**Duration**: 1w\n**Status**: ACTIVE\n**Progress**: 0/5\n\n### Deliverables\n\n100. Baz\n"

/-- Fixture: deliverable lines with one- and two-digit numbers. -/
def c3wdoc : String :=
  "## Sprint 1: G\n\n**Duration**: 1w\n**Status**: ACTIVE\n**Progress**: 0/5\n\n### Deliverables\n\n1. Foo\n12. Bar\n"

/-- The first sprint raw of `c3wdoc`. -/
def c3raw : Hit SprintGroups × List Char :=
  (sprintRaws c3wdoc.data).headD dummySprintRaw

/-- Fixture: a task with a checklist containing checked, unchecked and
capital-X lines. -/
def c4wdoc : String :=
  "### Task 1.1: T\n\n**ID**: task-001\n**Priority**: HIGH\n**Status**: PENDING\n**Estimated Effort**: 1h\n\n**Acceptance Criteria**:\n- [x] Export works\n- [ ] Import works\n"

/-- The first task raw of `c4wdoc`. -/
def c4raw : Hit TaskHdrGroups × List Char :=
  (taskRaws c4wdoc.data).headD dummyTaskRaw

/-- Fixture: a task whose blocker line is literally `None`. -/
def c5wdoc : String :=
  "### Task 1.1: T\n\n**ID**: task-001\n**Priority**: HIGH\n**Status**: PENDING\n**Estimated Effort**: 1h\n\n**Blockers**: None\n"

/-- The first task raw of `c5wdoc`. -/
def c5raw : Hit TaskHdrGroups × List Char :=
  (taskRaws c5wdoc.data).headD dummyTaskRaw

/-- Fixture: a completed task with neither metrics line. -/
def c6wdoc : String :=
  "### Task 1.1: T\n\n**ID**: task-001\n**Status**: COMMITTED\n**Completed**: 2025-10-01\n**Estimated**: 1h\n**Actual**: 1h\n**Sprint**: Sprint 1\n"

/-- The first completed-task raw of `c6wdoc`. -/
def c6raw : Hit CompHdrGroups × List Char :=
  (compRaws c6wdoc.data).headD dummyCompRaw

/-- Fixture: a COMPLETE sprint. -/
def c7wdoc : String :=
  "## Sprint 2: G\n\n**Duration**: 1w\n**Status**: COMPLETE\n**Progress**: 5/5\n"

/-- The first sprint raw of `c7wdoc`. -/
def c7raw : Hit SprintGroups × List Char :=
  (sprintRaws c7wdoc.data).headD dummySprintRaw

/-- Fixture: an active-task document whose only task has description
text after the label but no boundary after it. -/
def c10wdocT : String :=
  "### Task 1.1: T\n\n**ID**: task-001\n**Priority**: HIGH\n**Status**: PENDING\n**Estimated Effort**: 1h\n\n**Description**:\nSome text"

/-- The first task raw of `c10wdocT`. -/
def c10rawT : Hit TaskHdrGroups × List Char :=
  (taskRaws c10wdocT.data).headD dummyTaskRaw

/-- Fixture: a completed-task document whose only task has description
text after the label but no boundary after it. -/
def c10wdocC : String :=
  "### Task 1.1: T\n\n**ID**: task-001\n**Status**: DONE\n**Completed**: d\n**Estimated**: 1h\n**Actual**: 1h\n**Sprint**: S1\n\n**Description**:\nTail text"

/-- The first completed-task raw of `c10wdocC`. -/
def c10rawC : Hit CompHdrGroups × List Char :=
  (compRaws c10wdocC.data).headD dummyCompRaw

/-! ## Soundness lemmas for the combinators -/

theorem asString_data (s : String) : s.data.asString = s := rfl

theorem leadsWith_append (pat r : List Char) : leadsWith pat (pat ++ r) = true := by
  induction pat with
  | nil => rfl
  | cons c cs ih => simpa [leadsWith] using ih

theorem leadsWith_decomp {pat s : List Char} (h : leadsWith pat s = true) :
    s = pat ++ s.drop pat.length := by
  induction pat generalizing s with
  | nil => simp
  | cons c cs ih =>
    cases s with
    | nil => simp [leadsWith] at h
    | cons d ds =>
      simp only [leadsWith, Bool.and_eq_true, decide_eq_true_eq] at h
      obtain ⟨h1, h2⟩ := h
      subst h1
      simpa using ih h2

theorem lit_some {pat : List Char} {k : List Char → Option β} {s : List Char} {b : β}
    (h : lit pat k s = some b) :
    leadsWith pat s = true ∧ k (s.drop pat.length) = some b := by
  unfold lit at h
  split at h
  · exact ⟨by assumption, h⟩
  · exact absurd h (by simp)

theorem anyOne_some {p : Char → Bool} {k : Char → List Char → Option β}
    {s : List Char} {b : β} (h : anyOne p k s = some b) :
    ∃ c s', s = c :: s' ∧ p c = true ∧ k c s' = some b := by
  cases s with
  | nil => simp [anyOne] at h
  | cons c s' =>
    simp only [anyOne] at h
    by_cases hp : p c
    · rw [if_pos hp] at h
      exact ⟨c, s', rfl, hp, h⟩
    · rw [if_neg hp] at h
      exact absurd h (by simp)

theorem greedyGo_some {p : Char → Bool} {k : List Char → List Char → Option β}
    (s : List Char) : ∀ (acc : List Char) {b : β}, acc.all p = true → acc ≠ [] →
    greedyGo p k acc s = some b →
    ∃ g r, g ++ r = acc.reverse ++ s ∧ g.all p = true ∧ g ≠ [] ∧ k g r = some b := by
  induction s with
  | nil =>
    intro acc b ha hne h
    simp only [greedyGo] at h
    exact ⟨acc.reverse, [], by simp, by simpa using ha, by simpa using hne, h⟩
  | cons c s' ih =>
    intro acc b ha hne h
    simp only [greedyGo] at h
    by_cases hp : p c
    · rw [if_pos hp] at h
      cases hg : greedyGo p k (c :: acc) s' with
      | some b' =>
        rw [hg] at h
        obtain ⟨g, r, hgr, hgall, hgne, hk⟩ :=
          ih (c :: acc) (by simp [ha, hp]) (by simp) hg
        refine ⟨g, r, ?_, hgall, hgne, ?_⟩
        · rw [hgr]; simp
        · rw [hk]; exact h
      | none =>
        rw [hg] at h
        exact ⟨acc.reverse, c :: s', rfl, by simpa using ha, by simpa using hne, h⟩
    · rw [if_neg hp] at h
      exact ⟨acc.reverse, c :: s', rfl, by simpa using ha, by simpa using hne, h⟩

theorem greedyPlus_some {p : Char → Bool} {k : List Char → List Char → Option β}
    {s : List Char} {b : β} (h : greedyPlus p k s = some b) :
    ∃ g r, g ++ r = s ∧ g.all p = true ∧ g ≠ [] ∧ k g r = some b := by
  cases s with
  | nil => simp [greedyPlus] at h
  | cons c s' =>
    simp only [greedyPlus] at h
    by_cases hp : p c
    · rw [if_pos hp] at h
      obtain ⟨g, r, hgr, hgall, hgne, hk⟩ :=
        greedyGo_some s' [c] (by simp [hp]) (by simp) h
      exact ⟨g, r, by simpa using hgr, hgall, hgne, hk⟩
    · rw [if_neg hp] at h
      exact absurd h (by simp)

theorem lazyGo_some {p : Char → Bool} {k : List Char → List Char → Option β}
    (s : List Char) : ∀ (acc : List Char) {b : β}, acc ≠ [] →
    lazyGo p k acc s = some b →
    ∃ g r, g ++ r = acc.reverse ++ s ∧ g ≠ [] ∧ k g r = some b := by
  induction s with
  | nil =>
    intro acc b hne h
    simp only [lazyGo] at h
    cases hk : k acc.reverse [] with
    | some b' =>
      rw [hk] at h
      refine ⟨acc.reverse, [], by simp, by simpa using hne, ?_⟩
      rw [hk]; exact h
    | none => rw [hk] at h; exact absurd h (by simp)
  | cons c s' ih =>
    intro acc b hne h
    simp only [lazyGo] at h
    cases hk : k acc.reverse (c :: s') with
    | some b' =>
      rw [hk] at h
      refine ⟨acc.reverse, c :: s', rfl, by simpa using hne, ?_⟩
      rw [hk]; exact h
    | none =>
      rw [hk] at h
      by_cases hp : p c
      · rw [if_pos hp] at h
        obtain ⟨g, r, hgr, hgne, hkk⟩ := ih (c :: acc) (by simp) h
        refine ⟨g, r, ?_, hgne, hkk⟩
        rw [hgr]; simp
      · rw [if_neg hp] at h
        exact absurd h (by simp)

theorem lazyPlus_some {p : Char → Bool} {k : List Char → List Char → Option β}
    {s : List Char} {b : β} (h : lazyPlus p k s = some b) :
    ∃ g r, g ++ r = s ∧ g ≠ [] ∧ k g r = some b := by
  cases s with
  | nil => simp [lazyPlus] at h
  | cons c s' =>
    simp only [lazyPlus] at h
    by_cases hp : p c
    · rw [if_pos hp] at h
      obtain ⟨g, r, hgr, hgne, hk⟩ := lazyGo_some s' [c] (by simp) h
      exact ⟨g, r, by simpa using hgr, hgne, hk⟩
    · rw [if_neg hp] at h
      exact absurd h (by simp)

theorem searchAux_some {M : List Char → Option (α × List Char)}
    (s : List Char) : ∀ (i : Nat) {j : Nat} {a : α} {rest : List Char},
    searchAux M i s = some (j, a, rest) →
    ∃ pre suf, s = pre ++ suf ∧ j = i + pre.length ∧ M suf = some (a, rest) := by
  induction s with
  | nil =>
    intro i j a rest h
    simp only [searchAux] at h
    cases hm : M [] with
    | some ar =>
      rw [hm] at h
      obtain ⟨a', r'⟩ := ar
      simp only [Option.some.injEq, Prod.mk.injEq] at h
      obtain ⟨h1, h2, h3⟩ := h
      exact ⟨[], [], by simp, by simp [h1], by rw [hm, h2, h3]⟩
    | none => rw [hm] at h; exact absurd h (by simp)
  | cons c t ih =>
    intro i j a rest h
    simp only [searchAux] at h
    cases hm : M (c :: t) with
    | some ar =>
      rw [hm] at h
      obtain ⟨a', r'⟩ := ar
      simp only [Option.some.injEq, Prod.mk.injEq] at h
      obtain ⟨h1, h2, h3⟩ := h
      exact ⟨[], c :: t, by simp, by simp [h1], by rw [hm, h2, h3]⟩
    | none =>
      rw [hm] at h
      obtain ⟨pre, suf, hsplit, hj, hmm⟩ := ih (i + 1) h
      refine ⟨c :: pre, suf, by rw [hsplit]; rfl, ?_, hmm⟩
      simp [hj]; omega

theorem searchM_some {M : List Char → Option (α × List Char)}
    {s : List Char} {j : Nat} {a : α} {rest : List Char}
    (h : searchM M s = some (j, a, rest)) :
    ∃ pre suf, s = pre ++ suf ∧ j = pre.length ∧ M suf = some (a, rest) := by
  obtain ⟨pre, suf, h1, h2, h3⟩ := searchAux_some s 0 h
  exact ⟨pre, suf, h1, by omega, h3⟩

/-! ## Shape of recognized checklist blocks -/

theorem matchCritLine_some {s ln rest : List Char}
    (h : matchCritLine s = some (ln, rest)) :
    ∃ c t, nonNl c = true ∧ t ≠ [] ∧ t.all nonNl = true ∧
      ln = ("- [").data ++ [c] ++ ("] ").data ++ t ++ ("\n").data := by
  obtain ⟨_, h⟩ := lit_some h
  obtain ⟨c, s', _, hp, h⟩ := anyOne_some h
  obtain ⟨_, h⟩ := lit_some h
  obtain ⟨t, r, _, hall, hne, h⟩ := greedyPlus_some h
  obtain ⟨_, h⟩ := lit_some h
  simp only [Option.some.injEq, Prod.mk.injEq] at h
  exact ⟨c, t, hp, hne, hall, h.1.symm⟩

theorem linesPlusAux_shape {L : List Char → Option (List Char × List Char)}
    {Q : List Char → Prop}
    (hL : ∀ s ln r, L s = some (ln, r) → Q ln) :
    ∀ (fuel : Nat) (s : List Char), ∀ ln ∈ (linesPlusAux L fuel s).1, Q ln := by
  intro fuel
  induction fuel with
  | zero => intro s ln hmem; simp [linesPlusAux] at hmem
  | succ f ih =>
    intro s ln hmem
    simp only [linesPlusAux] at hmem
    cases hls : L s with
    | none => rw [hls] at hmem; simp at hmem
    | some lr =>
      rw [hls] at hmem
      obtain ⟨l, rest⟩ := lr
      simp only [List.mem_cons] at hmem
      rcases hmem with hmem | hmem
      · subst hmem; exact hL s ln rest hls
      · exact ih rest ln hmem

theorem blockPlus_shape {L : List Char → Option (List Char × List Char)}
    {Q : List Char → Prop}
    (hL : ∀ s ln r, L s = some (ln, r) → Q ln)
    {s : List Char} {ls : List (List Char)} {r : List Char}
    (h : blockPlus L s = some (ls, r)) : ∀ ln ∈ ls, Q ln := by
  unfold blockPlus at h
  cases hl : linesPlusAux L (s.length + 1) s with
  | mk ls' r' =>
    rw [hl] at h
    cases ls' with
    | nil => exact absurd h (by simp)
    | cons a as =>
      simp only [Option.some.injEq, Prod.mk.injEq] at h
      intro ln hmem
      have := linesPlusAux_shape hL (s.length + 1) s
      rw [hl] at this
      exact this ln (by rw [h.1]; exact hmem)

theorem splitNl_body {b : List Char} (rest : List Char) (hb : b.all nonNl = true) :
    splitNl (b ++ ('\n') :: rest) = b :: splitNl rest := by
  induction b with
  | nil => simp [splitNl]
  | cons c bs ih =>
    simp only [List.all_cons, Bool.and_eq_true] at hb
    have hc : ¬ (c = '\n') := by
      intro hcc
      rw [hcc] at hb
      simp [nonNl] at hb
    simp only [List.cons_append, splitNl, if_neg hc, List.append_eq, ih hb.2]

theorem splitNl_flatten : ∀ (lines : List (List Char)),
    (∀ l ∈ lines, ∃ b, b.all nonNl = true ∧ l = b ++ [('\n')]) →
    splitNl lines.flatten = lines.map List.dropLast ++ [[]] := by
  intro lines
  induction lines with
  | nil => intro _; simp [splitNl]
  | cons l ls ih =>
    intro h
    obtain ⟨b, hb, hl⟩ := h l (by simp)
    have hrec := ih (fun x hx => h x (by simp [hx]))
    rw [List.flatten_cons, hl, List.map_cons]
    have : (b ++ [('\n')]) ++ ls.flatten = b ++ ('\n') :: ls.flatten := by simp
    rw [this, splitNl_body _ hb, hrec, List.dropLast_concat]
    rfl

theorem criteriaLinesOf_shape {sec l : List Char} (h : l ∈ criteriaLinesOf sec) :
    ∃ c t, nonNl c = true ∧ t ≠ [] ∧ t.all nonNl = true ∧
      l = ("- [").data ++ [c] ++ ("] ").data ++ t := by
  unfold criteriaLinesOf at h
  cases hs : searchM matchCritBlock sec with
  | none => rw [hs] at h; simp at h
  | some jlr =>
    rw [hs] at h
    obtain ⟨j, ls, rest⟩ := jlr
    have hmem := List.mem_filter.mp h
    obtain ⟨hmem1, hpred⟩ := hmem
    have hQ : ∀ ln ∈ ls, ∃ c t, nonNl c = true ∧ t ≠ [] ∧ t.all nonNl = true ∧
        ln = ("- [").data ++ [c] ++ ("] ").data ++ t ++ ("\n").data := by
      obtain ⟨pre, suf, _, _, hm⟩ := searchM_some hs
      obtain ⟨_, hm2⟩ := lit_some hm
      exact blockPlus_shape (fun s ln r hh => matchCritLine_some hh) hm2
    have hlines : ∀ ln ∈ ls, ∃ b, b.all nonNl = true ∧ ln = b ++ [('\n')] := by
      intro ln hln
      obtain ⟨c, t, hc, htne, htall, hshape⟩ := hQ ln hln
      refine ⟨("- [").data ++ [c] ++ ("] ").data ++ t, ?_, by simpa using hshape⟩
      simp [List.all_append, htall, hc]
      decide
    rw [splitNl_flatten ls hlines] at hmem1
    rcases List.mem_append.mp hmem1 with hin | hin
    · obtain ⟨ln, hln, hdrop⟩ := List.mem_map.mp hin
      obtain ⟨c, t, hc, htne, htall, hshape⟩ := hQ ln hln
      refine ⟨c, t, hc, htne, htall, ?_⟩
      rw [← hdrop, hshape]
      have : ("- [").data ++ [c] ++ ("] ").data ++ t ++ ("\n").data
          = (("- [").data ++ [c] ++ ("] ").data ++ t) ++ [('\n')] := by simp
      rw [this, List.dropLast_concat]
    · simp only [List.mem_singleton] at hin
      subst hin
      simp [pyStrip, leadsWith] at hpred

/-! ## The description pattern can only match across a boundary -/

theorem matchDesc_some {s g rest : List Char} (h : matchDesc s = some (g, rest)) :
    ∃ r', s = ("**Description**:\n").data ++ g ++ ("\n\n**").data ++ r' ∧ g ≠ [] := by
  obtain ⟨hlead, h⟩ := lit_some h
  obtain ⟨g', r, hgr, hgne, hk⟩ := lazyPlus_some h
  by_cases hb : leadsWith (("\n\n**").data) r = true
  · rw [if_pos hb] at hk
    simp only [Option.some.injEq, Prod.mk.injEq] at hk
    obtain ⟨hg, hr⟩ := hk
    have hdec := leadsWith_decomp hlead
    have hrdec := leadsWith_decomp hb
    refine ⟨List.drop ((("\n\n**").data).length) r, ?_, by rw [← hg]; exact hgne⟩
    conv =>
      lhs
      rw [hdec, ← hgr, hrdec]
    rw [← hg]
    simp [List.append_assoc]
  · rw [if_neg hb] at hk
    exact absurd hk (by simp)

theorem descSearch_boundary {content : List Char} {j : Nat} {g rest : List Char}
    (h : searchM matchDesc content = some (j, g, rest)) :
    descBoundaryB content = true := by
  obtain ⟨pre, suf, hsp, hj, hm⟩ := searchM_some h
  obtain ⟨r', hsuf, hgne⟩ := matchDesc_some hm
  subst hsuf
  subst hsp
  have hglen : 1 ≤ g.length := by
    cases g with
    | nil => exact absurd rfl hgne
    | cons a as => simp
  have hL : ((("**Description**:\n").data)).length = 17 := by decide
  have hB : ((("\n\n**").data)).length = 4 := by decide
  have hlen : (pre ++ (("**Description**:\n").data ++ g ++ ("\n\n**").data ++ r')).length
      = pre.length + 17 + g.length + 4 + r'.length := by
    simp [List.length_append, hL, hB]
    omega
  apply List.any_eq_true.mpr
  refine ⟨pre.length, List.mem_range.mpr (by rw [hlen]; omega), ?_⟩
  simp only [Bool.and_eq_true]
  constructor
  · unfold subAt
    rw [List.drop_left]
    have hassoc : ("**Description**:\n").data ++ g ++ ("\n\n**").data ++ r'
        = ("**Description**:\n").data ++ (g ++ (("\n\n**").data ++ r')) := by
      simp [List.append_assoc]
    rw [hassoc]
    exact leadsWith_append _ _
  · apply List.any_eq_true.mpr
    refine ⟨pre.length + 17 + g.length, List.mem_range.mpr (by rw [hlen]; omega), ?_⟩
    simp only [Bool.and_eq_true]
    constructor
    · exact decide_eq_true (by omega)
    · unfold subAt
      have hplen : (pre ++ ("**Description**:\n").data ++ g).length
          = pre.length + 17 + g.length := by
        rw [List.length_append, List.length_append, hL]
      have hassoc : pre ++ (("**Description**:\n").data ++ g ++ ("\n\n**").data ++ r')
          = (pre ++ ("**Description**:\n").data ++ g) ++ (("\n\n**").data ++ r') := by
        simp [List.append_assoc]
      rw [hassoc, ← hplen, List.drop_left]
      exact leadsWith_append _ _

/-! ## Small helper lemmas -/

theorem isPySpace_of_digit {c : Char} (h : isPyDigit c = true) : isPySpace c = false := by
  by_contra hc
  rw [Bool.not_eq_false] at hc
  simp only [isPySpace, Bool.or_eq_true, decide_eq_true_eq] at hc
  rcases hc with ((((h1 | h1) | h1) | h1) | h1) | h1 <;>
    (subst h1; exact absurd h (by decide))

theorem pyStrip_eq_self {l : List Char}
    (h1 : ∀ c, l.head? = some c → isPySpace c = false)
    (h2 : ∀ c, l.getLast? = some c → isPySpace c = false) : pyStrip l = l := by
  unfold pyStrip
  have e1 : l.dropWhile isPySpace = l := by
    cases l with
    | nil => rfl
    | cons c cs =>
      rw [List.dropWhile_cons, if_neg (by simp [h1 c rfl])]
  rw [e1]
  have e2 : l.reverse.dropWhile isPySpace = l.reverse := by
    cases hr : l.reverse with
    | nil => rfl
    | cons c cs =>
      have hlast : l.getLast? = some c := by
        rw [List.getLast?_eq_head?_reverse, hr]
        rfl
      rw [List.dropWhile_cons, if_neg (by simp [h2 c hlast])]
  rw [e2, List.reverse_reverse]

theorem pyStrip_cons_space {c : Char} {l : List Char} (h : isPySpace c = true) :
    pyStrip (c :: l) = pyStrip l := by
  unfold pyStrip
  rw [List.dropWhile_cons, if_pos h]

/-! ## Projections of the three extractors -/

theorem parse_sprints_md_sprints (md today : String) :
    (parse_sprints_md md today).sprints = (sprintRaws md.data).map buildSprint := rfl

theorem parse_task_md_tasks (md now : String) :
    (parse_task_md md now).tasks = (taskRaws md.data).map buildTaskDetail := rfl

theorem parse_completed_md_tasks (md now : String) :
    (parse_completed_tasks_md md now).tasks = (compRaws md.data).map buildCompleted := rfl

theorem sprintRaws_length (s : List Char) :
    (sprintRaws s).length = (findIter matchSprint s).length := by
  simp [sprintRaws]

/-! ## Claim theorems -/

/-- C7: for every recognized sprint record, the completion-date field
is present if and only if the sprint's status token equals
`"COMPLETE"`, and when present it is the fixed literal `"2025-10-04"`,
for every document and every sprint alike. -/
theorem sprint_completion_date (md today : String) (i : Nat)
    (rc : Hit SprintGroups × List Char)
    (h : (sprintRaws md.data)[i]? = some rc) :
    ((parse_sprints_md md today).sprints[i]? = some (buildSprint rc)) ∧
    ((buildSprint rc).completed.isSome ↔ (buildSprint rc).status = ("COMPLETE")) ∧
    ((buildSprint rc).status = ("COMPLETE") →
      (buildSprint rc).completed = some (("2025-10-04"))) := by
  refine ⟨?_, ?_, ?_⟩
  · rw [parse_sprints_md_sprints, List.getElem?_map, h]
    rfl
  · by_cases hc : (pyStrip rc.1.groups.g4).asString = ("COMPLETE")
    · simp [buildSprint, hc]
    · simp [buildSprint, hc]
  · intro hc
    by_cases hc' : (pyStrip rc.1.groups.g4).asString = ("COMPLETE")
    · simp [buildSprint, hc']
    · exact absurd (by simpa [buildSprint] using hc) hc'

/-- Witness for C7 at a concrete COMPLETE sprint. -/
theorem sprint_completion_date_witness :
    ((parse_sprints_md c7wdoc ("2025-01-01")).sprints[0]? = some (buildSprint c7raw)) ∧
    ((buildSprint c7raw).completed.isSome ↔ (buildSprint c7raw).status = ("COMPLETE")) ∧
    ((buildSprint c7raw).status = ("COMPLETE") →
      (buildSprint c7raw).completed = some (("2025-10-04"))) :=
  sprint_completion_date c7wdoc ("2025-01-01") 0 c7raw (by rfl)

/-- C8: two runs of the full migration on equal input documents and
equal clock values produce equal records from all three extractors
(run-to-run determinism; the timestamps are functions of the clock
inputs alone). -/
theorem migration_deterministic (a a' ta ta' b b' tb tb' c c' tc tc' : String)
    (ha : a = a') (hta : ta = ta') (hb : b = b') (htb : tb = tb')
    (hc : c = c') (htc : tc = tc') :
    parse_sprints_md a ta = parse_sprints_md a' ta' ∧
    parse_task_md b tb = parse_task_md b' tb' ∧
    parse_completed_tasks_md c tc = parse_completed_tasks_md c' tc' := by
  subst ha
  subst hta
  subst hb
  subst htb
  subst hc
  subst htc
  exact ⟨rfl, rfl, rfl⟩

/-- Witness for C8 at concrete documents. -/
theorem migration_deterministic_witness :
    parse_sprints_md c1wdoc ("2025-01-01") = parse_sprints_md c1wdoc ("2025-01-01") ∧
    parse_task_md c4wdoc ("T") = parse_task_md c4wdoc ("T") ∧
    parse_completed_tasks_md c6wdoc ("T") = parse_completed_tasks_md c6wdoc ("T") :=
  migration_deterministic c1wdoc c1wdoc ("2025-01-01") ("2025-01-01")
    c4wdoc c4wdoc ("T") ("T") c6wdoc c6wdoc ("T") ("T")
    rfl rfl rfl rfl rfl rfl

/-- C9: whatever each pipeline's read and write operations do, the
orchestrator prints all three per-pipeline step headers, one
success-or-error marker line per pipeline (an exception is caught and
shown as an error line), and always the final completion banner. -/
theorem orchestrator_always_runs_all (read1 : Except String String) (today : String)
    (write1 : SprintsDoc → Except String Unit)
    (read2 : Except String String) (now2 : String)
    (write2 : TaskDoc → Except String Unit)
    (read3 : Except String String) (now3 : String)
    (write3 : CompletedDoc → Except String Unit) :
    banner ∈ mainLog read1 today write1 read2 now2 write2 read3 now3 write3 ∧
    ("1. Migrating SPRINTS.md to SPRINTS.yml...") ∈
      mainLog read1 today write1 read2 now2 write2 read3 now3 write3 ∧
    ("2. Migrating TASK.md to TASK.yml...") ∈
      mainLog read1 today write1 read2 now2 write2 read3 now3 write3 ∧
    ("3. Migrating COMPLETED_TASKS.md to COMPLETED_TASKS.yml...") ∈
      mainLog read1 today write1 read2 now2 write2 read3 now3 write3 ∧
    markerLine (("   ‚úÖ SPRINTS.yml created successfully\n"))
        (sprintsPipeline read1 today write1) ∈
      mainLog read1 today write1 read2 now2 write2 read3 now3 write3 ∧
    markerLine (("   ‚úÖ TASK.yml created successfully\n"))
        (taskPipeline read2 now2 write2) ∈
      mainLog read1 today write1 read2 now2 write2 read3 now3 write3 ∧
    markerLine (("   ‚úÖ COMPLETED_TASKS.yml created successfully\n"))
        (completedPipeline read3 now3 write3) ∈
      mainLog read1 today write1 read2 now2 write2 read3 now3 write3 := by
  refine ⟨?_, ?_, ?_, ?_, ?_, ?_, ?_⟩ <;> simp [mainLog, mainLines]

theorem none_asString : (['N', 'o', 'n', 'e'].asString) = ("None") := rfl

/-- C5: for every recognized task, the blockers field is the
normalization of the blocker search: absent line or literal `None`
(after stripping) gives an absent value, any other line gives its
stripped text; in particular the field is never the string `"None"`. -/
theorem blockers_normalization (md now : String) (i : Nat)
    (rc : Hit TaskHdrGroups × List Char)
    (h : (taskRaws md.data)[i]? = some rc) :
    ((parse_task_md md now).tasks[i]? = some (buildTaskDetail rc)) ∧
    ((buildTaskDetail rc).blockers =
      match searchM matchBlockers rc.2 with
      | none => none
      | some (_, g, _) =>
        if (pyStrip g).asString = ("None") then none
        else some ((pyStrip g).asString)) ∧
    ((buildTaskDetail rc).blockers ≠ some (("None"))) := by
  refine ⟨?_, ?_, ?_⟩
  · rw [parse_task_md_tasks, List.getElem?_map, h]
    rfl
  · cases hs : searchM matchBlockers rc.2 with
    | none => simp [buildTaskDetail, blockersOf, hs, none_asString]
    | some jgr =>
      obtain ⟨j, g, r⟩ := jgr
      by_cases hn : (pyStrip g).asString = ("None")
      · simp [buildTaskDetail, blockersOf, hs, hn]
      · simp [buildTaskDetail, blockersOf, hs, hn]
  · cases hs : searchM matchBlockers rc.2 with
    | none => simp [buildTaskDetail, blockersOf, hs, none_asString]
    | some jgr =>
      obtain ⟨j, g, r⟩ := jgr
      by_cases hn : (pyStrip g).asString = ("None")
      · simp [buildTaskDetail, blockersOf, hs, hn]
      · simp [buildTaskDetail, blockersOf, hs, hn]

/-- Witness for C5 at a concrete task whose blocker line is `None`. -/
theorem blockers_normalization_witness :
    ((parse_task_md c5wdoc ("T")).tasks[0]? = some (buildTaskDetail c5raw)) ∧
    ((buildTaskDetail c5raw).blockers =
      match searchM matchBlockers c5raw.2 with
      | none => none
      | some (_, g, _) =>
        if (pyStrip g).asString = ("None") then none
        else some ((pyStrip g).asString)) ∧
    ((buildTaskDetail c5raw).blockers ≠ some (("None"))) :=
  blockers_normalization c5wdoc ("T") 0 c5raw (by rfl)

/-- C6: for every recognized completed task, the metrics map holds the
`tests_passing` key exactly when the `Tests passing` search succeeds
on the task span and the `code_coverage` key exactly when the
`Code coverage` search succeeds; with neither line the map is empty. -/
theorem quality_metrics_keys (md now : String) (j : Nat)
    (rc : Hit CompHdrGroups × List Char)
    (h : (compRaws md.data)[j]? = some rc) :
    ((parse_completed_tasks_md md now).tasks[j]? = some (buildCompleted rc)) ∧
    (((buildCompleted rc).quality_metrics.lookup (("tests_passing"))).isSome ↔
      (searchM matchTests rc.2).isSome) ∧
    (((buildCompleted rc).quality_metrics.lookup (("code_coverage"))).isSome ↔
      (searchM matchCoverage rc.2).isSome) ∧
    ((searchM matchTests rc.2 = none ∧ searchM matchCoverage rc.2 = none) →
      (buildCompleted rc).quality_metrics = []) := by
  refine ⟨?_, ?_, ?_, ?_⟩
  · rw [parse_completed_md_tasks, List.getElem?_map, h]
    rfl
  · cases ht : searchM matchTests rc.2 <;> cases hcv : searchM matchCoverage rc.2 <;>
      simp [buildCompleted, qualityMetricsOf, ht, hcv, List.lookup]
  · cases ht : searchM matchTests rc.2 <;> cases hcv : searchM matchCoverage rc.2 <;>
      simp [buildCompleted, qualityMetricsOf, ht, hcv, List.lookup]
  · intro hboth
    simp [buildCompleted, qualityMetricsOf, hboth.1, hboth.2]

/-- Witness for C6 at a concrete completed task with no metrics lines. -/
theorem quality_metrics_keys_witness :
    ((parse_completed_tasks_md c6wdoc ("T")).tasks[0]? = some (buildCompleted c6raw)) ∧
    (((buildCompleted c6raw).quality_metrics.lookup (("tests_passing"))).isSome ↔
      (searchM matchTests c6raw.2).isSome) ∧
    (((buildCompleted c6raw).quality_metrics.lookup (("code_coverage"))).isSome ↔
      (searchM matchCoverage c6raw.2).isSome) ∧
    ((searchM matchTests c6raw.2 = none ∧ searchM matchCoverage c6raw.2 = none) →
      (buildCompleted c6raw).quality_metrics = []) :=
  quality_metrics_keys c6wdoc ("T") 0 c6raw (by rfl)

/-- C1 counterexample: on a header whose goal group ends in a space,
the produced record's goal field is the *stripped* group, not the
matched group, so the record's fields do not equal the matched groups
field-for-field. -/
theorem sprint_fields_counterexample :
    ((findIter matchSprint c1xdoc.data).map (fun h => h.groups.g2.asString)
      = [("Goal ")]) ∧
    ((parse_sprints_md c1xdoc ("2025-01-01")).sprints.map Sprint.goal
      = [("Goal")]) ∧
    (("Goal") ≠ ("Goal ")) := by
  refine ⟨rfl, rfl, by decide⟩

/-- C1 (amended): every sprint-header match yields exactly one record,
in order, whose fields are the matched groups after integer conversion
of the numeric groups and whitespace-stripping of the text groups; a
header not matching the pattern yields no record (the record list is
exactly one-per-match) and the extractor is total. -/
theorem sprint_fields_from_groups (md today : String) (i : Nat)
    (rc : Hit SprintGroups × List Char)
    (h : (sprintRaws md.data)[i]? = some rc) :
    ((parse_sprints_md md today).sprints.length
      = (findIter matchSprint md.data).length) ∧
    ((parse_sprints_md md today).sprints[i]? = some (buildSprint rc)) ∧
    ((buildSprint rc).id = pyInt rc.1.groups.g1) ∧
    ((buildSprint rc).goal = (pyStrip rc.1.groups.g2).asString) ∧
    ((buildSprint rc).duration = (pyStrip rc.1.groups.g3).asString) ∧
    ((buildSprint rc).status = (pyStrip rc.1.groups.g4).asString) ∧
    ((buildSprint rc).progress
      = Progress.mk (pyInt rc.1.groups.g5) (pyInt rc.1.groups.g6)) := by
  refine ⟨?_, ?_, rfl, rfl, rfl, rfl, rfl⟩
  · rw [parse_sprints_md_sprints, List.length_map, sprintRaws_length]
  · rw [parse_sprints_md_sprints, List.getElem?_map, h]
    rfl

/-- Witness for the amended C1 at a concrete document. -/
theorem sprint_fields_from_groups_witness :
    ((parse_sprints_md c1wdoc ("2025-01-01")).sprints.length
      = (findIter matchSprint c1wdoc.data).length) ∧
    ((parse_sprints_md c1wdoc ("2025-01-01")).sprints[0]? = some (buildSprint c1raw)) ∧
    ((buildSprint c1raw).id = pyInt c1raw.1.groups.g1) ∧
    ((buildSprint c1raw).goal = (pyStrip c1raw.1.groups.g2).asString) ∧
    ((buildSprint c1raw).duration = (pyStrip c1raw.1.groups.g3).asString) ∧
    ((buildSprint c1raw).status = (pyStrip c1raw.1.groups.g4).asString) ∧
    ((buildSprint c1raw).progress
      = Progress.mk (pyInt c1raw.1.groups.g5) (pyInt c1raw.1.groups.g6)) :=
  sprint_fields_from_groups c1wdoc ("2025-01-01") 0 c1raw (by rfl)

/-- C2 counterexample: a sprint span repeating one task identifier
produces two task summaries with the same identifier, so uniqueness of
identifiers within a sprint does not hold. -/
theorem task_ids_counterexample :
    ((parse_sprints_md c2xdoc ("2025-01-01")).sprints.map
        (fun sp => sp.tasks.map TaskSummary.id)
      = [[("task-001"), ("task-001")]]) ∧
    ¬ ([("task-001"), ("task-001")] : List String).Nodup := by
  refine ⟨rfl, by decide⟩

/-- C2 (amended): a sprint's task summaries carry, in order, exactly
the identifier groups of the task-line matches in its span, with no
deduplication; identifiers are therefore unique within a sprint
exactly when the matched identifier groups are pairwise distinct. -/
theorem task_ids_from_span (md today : String) (i : Nat)
    (rc : Hit SprintGroups × List Char)
    (h : (sprintRaws md.data)[i]? = some rc) :
    ((parse_sprints_md md today).sprints[i]?).map
        (fun sp => sp.tasks.map TaskSummary.id)
      = some ((findIter matchTaskLine rc.2).map (fun t => t.groups.g1.asString)) := by
  rw [parse_sprints_md_sprints, List.getElem?_map, h]
  simp [buildSprint, tasksOf]

/-- Witness for the amended C2 at a concrete document. -/
theorem task_ids_from_span_witness :
    ((parse_sprints_md c2wdoc ("2025-01-01")).sprints[0]?).map
        (fun sp => sp.tasks.map TaskSummary.id)
      = some ((findIter matchTaskLine c2raw.2).map (fun t => t.groups.g1.asString)) :=
  task_ids_from_span c2wdoc ("2025-01-01") 0 c2raw (by rfl)

/-- C3 counterexample: a deliverable line numbered `100.` keeps part
of its numbering marker: the extractor removes exactly three
characters, so the produced string is `". Baz"`, not `"Baz"`. -/
theorem deliverables_counterexample :
    ((parse_sprints_md c3xdoc ("2025-01-01")).sprints.map Sprint.deliverables
      = [[(". Baz")]]) ∧
    ((". Baz") ≠ ("Baz")) := by
  refine ⟨rfl, by decide⟩

/-- C3 (amended): every surviving line of a recognized deliverables
block yields exactly one deliverable, in order, equal to
`strip(drop 3 (strip line))`; for a line `N. text` whose number has at
most two digits and whose text carries no surrounding whitespace this
is the line's text with the numbering marker removed, while longer
numbers leave part of the marker behind. -/
theorem deliverables_strip_marker (md today : String) (i : Nat)
    (rc : Hit SprintGroups × List Char) (n t : String)
    (h : (sprintRaws md.data)[i]? = some rc)
    (hn1 : n.data.all isPyDigit = true) (hn2 : 1 ≤ n.length) (hn3 : n.length ≤ 2)
    (ht0 : t ≠ (""))
    (ht1 : ∀ c, t.data.head? = some c → isPySpace c = false)
    (ht2 : ∀ c, t.data.getLast? = some c → isPySpace c = false) :
    (((parse_sprints_md md today).sprints[i]?).map Sprint.deliverables
      = some ((deliverableLinesOf rc.2).map delivLineText)) ∧
    (delivLineText ((n ++ (". ") ++ t).data) = t) := by
  constructor
  · rw [parse_sprints_md_sprints, List.getElem?_map, h]
    simp [buildSprint, deliverablesOf]
  · have htne : t.data ≠ [] := by
      intro hx
      exact ht0 (by cases t with | mk d => simp at hx; rw [hx])
    have hdata : (n ++ (". ") ++ t).data = n.data ++ ('.' :: ' ' :: t.data) := by
      rw [String.data_append, String.data_append, List.append_assoc]
      rfl
    have hlen : n.data.length = n.length := rfl
    have hstrip_t : pyStrip t.data = t.data := pyStrip_eq_self ht1 ht2
    cases hnd : n.data with
    | nil =>
      exfalso
      have : n.length = 0 := by rw [← hlen, hnd]; rfl
      omega
    | cons d rest =>
      have hd : isPyDigit d = true := by
        rw [hnd] at hn1
        simp only [List.all_cons, Bool.and_eq_true] at hn1
        exact hn1.1
      cases rest with
      | nil =>
        have hline : (n ++ (". ") ++ t).data = d :: '.' :: ' ' :: t.data := by
          rw [hdata, hnd]
          rfl
        have hstrip_line : pyStrip (d :: '.' :: ' ' :: t.data)
            = d :: '.' :: ' ' :: t.data := by
          apply pyStrip_eq_self
          · intro c hc
            simp only [List.head?] at hc
            cases hc
            exact isPySpace_of_digit hd
          · intro c hc
            apply ht2
            rw [← hc]
            have : d :: '.' :: ' ' :: t.data = [d, '.', ' '] ++ t.data := rfl
            rw [this, List.getLast?_append_of_ne_nil _ htne]
        unfold delivLineText
        rw [hline, hstrip_line]
        have : List.drop 3 (d :: '.' :: ' ' :: t.data) = t.data := rfl
        rw [this, hstrip_t]
        exact asString_data t
      | cons d2 rest2 =>
        cases rest2 with
        | nil =>
          have hd2 : isPyDigit d2 = true := by
            rw [hnd] at hn1
            simp only [List.all_cons, Bool.and_eq_true] at hn1
            exact hn1.2.1
          have hline : (n ++ (". ") ++ t).data = d :: d2 :: '.' :: ' ' :: t.data := by
            rw [hdata, hnd]
            rfl
          have hstrip_line : pyStrip (d :: d2 :: '.' :: ' ' :: t.data)
              = d :: d2 :: '.' :: ' ' :: t.data := by
            apply pyStrip_eq_self
            · intro c hc
              simp only [List.head?] at hc
              cases hc
              exact isPySpace_of_digit hd
            · intro c hc
              apply ht2
              rw [← hc]
              have : d :: d2 :: '.' :: ' ' :: t.data = [d, d2, '.', ' '] ++ t.data := rfl
              rw [this, List.getLast?_append_of_ne_nil _ htne]
          unfold delivLineText
          rw [hline, hstrip_line]
          have hdrop : List.drop 3 (d :: d2 :: '.' :: ' ' :: t.data)
              = ' ' :: t.data := rfl
          rw [hdrop, pyStrip_cons_space (by decide), hstrip_t]
          exact asString_data t
        | cons d3 rest3 =>
          exfalso
          have : 3 ≤ n.length := by
            rw [← hlen, hnd]
            exact Nat.le_add_left 3 rest3.length
          omega

/-- Witness for the amended C3 at a concrete document and line. -/
theorem deliverables_strip_marker_witness :
    (((parse_sprints_md c3wdoc ("2025-01-01")).sprints[0]?).map Sprint.deliverables
      = some ((deliverableLinesOf c3raw.2).map delivLineText)) ∧
    (delivLineText ((("12") ++ (". ") ++ ("Bar")).data) = ("Bar")) :=
  deliverables_strip_marker c3wdoc ("2025-01-01") 0 c3raw ("12") ("Bar")
    (by rfl) (by decide) (by decide) (by decide) (by decide)
    (by intro c hc; cases hc; rfl) (by intro c hc; cases hc; rfl)

/-- C4: each surviving line of a recognized acceptance-criteria block
yields one criterion whose completed flag is exactly «the letter `x`
occurs among the first six characters of the line», and a line with a
blank checkbox marker (`- [ ]`) always yields `completed = false`
(recognized lines have `] ` at positions 4–5, so no criterion text can
leak an `x` into the first six characters of a blank-marker line). -/
theorem criteria_completed_flag (md now : String) (i : Nat)
    (rc : Hit TaskHdrGroups × List Char) (l : List Char)
    (h : (taskRaws md.data)[i]? = some rc)
    (hl : l ∈ criteriaLinesOf rc.2) :
    (((parse_task_md md now).tasks[i]?).map TaskDetail.acceptance_criteria
      = some ((criteriaLinesOf rc.2).map criterionOfLine)) ∧
    ((criterionOfLine l).completed = (l.take 6).any (fun ch => ch == 'x')) ∧
    (leadsWith (("- [ ]").data) l = true → (criterionOfLine l).completed = false) := by
  refine ⟨?_, rfl, ?_⟩
  · rw [parse_task_md_tasks, List.getElem?_map, h]
    simp [buildTaskDetail, criteriaOf]
  · intro hblank
    obtain ⟨c, t, hc, htne, htall, hshape⟩ := criteriaLinesOf_shape hl
    subst hshape
    have hbl : leadsWith (("- [ ]").data)
        ('-' :: ' ' :: '[' :: c :: ']' :: ' ' :: t) = true := hblank
    simp only [leadsWith, Bool.and_eq_true, decide_eq_true_eq] at hbl
    have hcsp : c = ' ' := by
      obtain ⟨_, _, _, h4, _⟩ := hbl
      exact h4.symm
    subst hcsp
    rfl

/-- Witness for C4 at a concrete checklist with a blank-marker line. -/
theorem criteria_completed_flag_witness :
    (((parse_task_md c4wdoc ("T")).tasks[0]?).map TaskDetail.acceptance_criteria
      = some ((criteriaLinesOf c4raw.2).map criterionOfLine)) ∧
    ((criterionOfLine (("- [ ] Import works").data)).completed
      = ((("- [ ] Import works").data).take 6).any (fun ch => ch == 'x')) ∧
    (leadsWith (("- [ ]").data) (("- [ ] Import works").data) = true →
      (criterionOfLine (("- [ ] Import works").data)).completed = false) :=
  criteria_completed_flag c4wdoc ("T") 0 c4raw (("- [ ] Import works").data)
    (by rfl) (by decide)

/-- C10: in both task documents, when a task's span has no description
boundary — no occurrence of the blank-line-plus-bold marker `\n\n**`
at least one character after an occurrence of the description label —
the description search cannot match, and the produced record's
description is the empty string, even if text follows the label; the
extractor is total, so no error is raised. -/
theorem missing_boundary_empty_description (mdT mdC now : String) (i j : Nat)
    (rcT : Hit TaskHdrGroups × List Char) (rcC : Hit CompHdrGroups × List Char)
    (hT : (taskRaws mdT.data)[i]? = some rcT)
    (hC : (compRaws mdC.data)[j]? = some rcC)
    (bT : descBoundaryB rcT.2 = false)
    (bC : descBoundaryB rcC.2 = false) :
    (((parse_task_md mdT now).tasks[i]?).map TaskDetail.description = some ((""))) ∧
    (((parse_completed_tasks_md mdC now).tasks[j]?).map CompletedTask.description
      = some ((""))) := by
  have keyT : descOf rcT.2 = ("") := by
    cases hs : searchM matchDesc rcT.2 with
    | none => simp [descOf, hs]
    | some jgr =>
      obtain ⟨jj, g, r⟩ := jgr
      exact absurd (descSearch_boundary hs) (by rw [bT]; simp)
  have keyC : descOf rcC.2 = ("") := by
    cases hs : searchM matchDesc rcC.2 with
    | none => simp [descOf, hs]
    | some jgr =>
      obtain ⟨jj, g, r⟩ := jgr
      exact absurd (descSearch_boundary hs) (by rw [bC]; simp)
  constructor
  · rw [parse_task_md_tasks, List.getElem?_map, hT]
    simp [buildTaskDetail, keyT]
  · rw [parse_completed_md_tasks, List.getElem?_map, hC]
    simp [buildCompleted, keyC]

/-- Witness for C10 at concrete spans with label and trailing text but
no boundary. -/
theorem missing_boundary_empty_description_witness :
    (((parse_task_md c10wdocT ("T")).tasks[0]?).map TaskDetail.description
      = some ((""))) ∧
    (((parse_completed_tasks_md c10wdocC ("T")).tasks[0]?).map
        CompletedTask.description = some ((""))) :=
  missing_boundary_empty_description c10wdocT c10wdocC ("T") 0 0
    c10rawT c10rawC (by rfl) (by rfl) (by rfl) (by rfl)
